import Mathlib

/-!
# pythoscope/_util.c : `_generator_has_ended`

A shallow embedding of the one C function of `pythoscope/_util.c` and of the
three CPython facilities it relies on (`PyArg_ParseTuple` with the format `"O"`,
the pointer reads `gen->gi_frame` and `frame->f_stacktop`, `PyBool_FromLong`).

The interpreter state is passed explicitly.  Pointers are addresses (`Nat`),
`0` being `NULL`.  Reading through a pointer that addresses no object of the
expected layout is undefined behaviour in C; the embedding returns `none` there.
-/

set_option autoImplicit false

namespace Pythoscope

/-! ## Data model -/

/-- A machine address; `0` is the null pointer. -/
abbrev Addr := Nat

/-- The null pointer. -/
def NULL : Addr := 0

/-- The type object an object header points to (`ob_type`).  Only the
distinction between a generator and anything else matters to the claims. -/
inductive PyTypeObject where
  | PyGen_Type
  | PyInt_Type
  | PyString_Type
  | PyNone_Type
  | PyFrame_Type
  deriving DecidableEq, Repr

/-- The part of CPython's `PyFrameObject` (`frameobject.h`) the function can
touch, together with representative other fields of the frame: the caller frame,
the last instruction, the line number and the locals-plus-stack area.
`f_stacktop` is the `PyObject **` that is `NULL` while the frame is executing
or after it has finished, and points into the value stack while the frame is
suspended or not yet started. -/
structure PyFrameObject where
  f_back : Addr
  f_lasti : Int
  f_lineno : Int
  f_localsplus : List Addr
  f_stacktop : Addr
  deriving DecidableEq, Repr

/-- The `genobject` typedef of `_util.c` (lines 10-13): `PyObject_HEAD`
(reference count and type) followed by the frame pointer.  The function reads
every argument through this layout, so for an object that is not a generator
`gi_frame` is whatever pointer-sized word that object keeps right behind its
header (`ob_ival` for an `int`).  `gi_rest` stands for the words of the object
behind `gi_frame`, which the typedef does not name. -/
structure genobject where
  ob_refcnt : Nat
  ob_type : PyTypeObject
  gi_frame : Addr
  gi_rest : List Nat
  deriving DecidableEq, Repr

/-- The exceptions the argument parser can set. -/
inductive PyExc where
  | TypeError
  | SystemError
  deriving DecidableEq, Repr

/-- The interpreter state the call can see: the objects an argument tuple can
refer to (seen through the `genobject` layout), the frames, the reference
counts of the two boolean singletons and the error indicator. -/
structure Interp where
  objects : List (Addr × genobject)
  frames : List (Addr × PyFrameObject)
  true_refcnt : Nat
  false_refcnt : Nat
  curexc : Option PyExc
  deriving DecidableEq, Repr

/-- What a `PyObject *` returned by the function can be: `NULL` (an error, the
error indicator is set) or one of the two boolean singletons. -/
inductive PyObjectPtr where
  | NULL
  | Py_True
  | Py_False
  deriving DecidableEq, Repr

/-! ## CPython facilities used by the function -/

/-- CPython's `PyArg_ParseTuple` for formats made of `O` units only.  Each `O`
takes one argument of any type, unconverted and unchecked, as a borrowed
reference.  On an arity mismatch it sets `TypeError` and fails; on a format
character other than `O` it sets `SystemError` and fails. -/
def PyArg_ParseTuple (args : List Addr) (format : String) (st : Interp) :
    Option (List Addr) × Interp :=
  if format.toList.all (fun c => c == 'O') then
    if args.length == format.length then (some args, st)
    else (none, { st with curexc := some PyExc.TypeError })
  else (none, { st with curexc := some PyExc.SystemError })

/-- CPython's `PyBool_FromLong`: picks `Py_True` for a non-zero argument and
`Py_False` for zero, and takes a new reference to the singleton. -/
def PyBool_FromLong (ok : Int) (st : Interp) : PyObjectPtr × Interp :=
  if ok ≠ 0 then (PyObjectPtr.Py_True, { st with true_refcnt := st.true_refcnt + 1 })
  else (PyObjectPtr.Py_False, { st with false_refcnt := st.false_refcnt + 1 })

/-- The read `gen->gi_frame`: defined when `gen` addresses an object. -/
def read_gi_frame (st : Interp) (gen : Addr) : Option Addr :=
  (st.objects.lookup gen).map (fun g => g.gi_frame)

/-- The read `frame->f_stacktop`: defined when `frame` addresses a frame. -/
def read_f_stacktop (st : Interp) (frame : Addr) : Option Addr :=
  (st.frames.lookup frame).map (fun f => f.f_stacktop)

/-! ## The function -/

/-- The C function `_generator_has_ended(self, args)` of `_util.c`, lines 15-32.
`none` is undefined behaviour (a read through a pointer that addresses no
object); otherwise the returned pointer and the interpreter state after the
call.  The C `||` is short-circuit: `frame->f_stacktop` is read only when
`frame` is not `NULL`. -/
def _generator_has_ended (self : Addr) (args : List Addr) (st : Interp) :
    Option (PyObjectPtr × Interp) :=
  match PyArg_ParseTuple args "O" st with
  | (some [gen], st1) =>
    match read_gi_frame st1 gen with
    | none => none
    | some frame =>
      if frame = NULL then some (PyBool_FromLong 1 st1)
      else
        match read_f_stacktop st1 frame with
        | none => none
        | some stacktop => some (PyBool_FromLong (if stacktop = NULL then 1 else 0) st1)
  | (_, st1) => some (PyObjectPtr.NULL, st1)

/-- A caller that makes `n` calls in a row with the same arguments, passing the
interpreter state from each call to the next with nothing in between, and
collects the returned pointers in call order. -/
def repeat_calls (self : Addr) (args : List Addr) : Nat → Interp → Option (List PyObjectPtr × Interp)
  | 0, st => some ([], st)
  | n + 1, st =>
    match _generator_has_ended self args st with
    | none => none
    | some (r, st1) =>
      match repeat_calls self args n st1 with
      | none => none
      | some (rs, st2) => some (r :: rs, st2)

/-! ## Concrete interpreter states -/

/-- A frame suspended at a `yield` (or not yet started): `f_stacktop` points
into its value stack. -/
def live_frame : PyFrameObject :=
  { f_back := 0, f_lasti := 3, f_lineno := 2, f_localsplus := [48], f_stacktop := 232 }

/-- A frame that has been evaluated to completion: `f_stacktop` is `NULL`. -/
def dead_frame : PyFrameObject :=
  { f_back := 0, f_lasti := 9, f_lineno := 4, f_localsplus := [48], f_stacktop := 0 }

/-- A generator at address 100 whose frame at address 200 is live. -/
def st_suspended : Interp :=
  { objects := [(100, { ob_refcnt := 1, ob_type := .PyGen_Type, gi_frame := 200, gi_rest := [0] })],
    frames := [(200, live_frame)], true_refcnt := 5, false_refcnt := 5, curexc := none }

/-- Another suspended frame: a different caller, instruction position, line
number, locals and stack-top address. -/
def other_live_frame : PyFrameObject :=
  { f_back := 64, f_lasti := 21, f_lineno := 11, f_localsplus := [48, 56], f_stacktop := 520 }

/-- Another suspended generator: a different address, reference count and
frame, in an interpreter state that differs too. -/
def st_suspended_other : Interp :=
  { objects := [(300, { ob_refcnt := 4, ob_type := .PyGen_Type, gi_frame := 400, gi_rest := [1, 7] })],
    frames := [(400, other_live_frame)],
    true_refcnt := 8, false_refcnt := 2, curexc := some PyExc.SystemError }

/-- A finished generator at address 100 whose frame has been released
(Python 2.5 and later). -/
def st_released : Interp :=
  { objects := [(100, { ob_refcnt := 1, ob_type := .PyGen_Type, gi_frame := 0, gi_rest := [0] })],
    frames := [], true_refcnt := 5, false_refcnt := 5, curexc := none }

/-- A finished generator at address 100 that keeps its finished frame at
address 200 (Pythons before 2.5). -/
def st_kept : Interp :=
  { objects := [(100, { ob_refcnt := 1, ob_type := .PyGen_Type, gi_frame := 200, gi_rest := [] })],
    frames := [(200, dead_frame)], true_refcnt := 5, false_refcnt := 5, curexc := none }

/-- The `int` object `0` at address 16: the word behind its header is its
value, `0`. -/
def st_int_zero : Interp :=
  { objects := [(16, { ob_refcnt := 9, ob_type := .PyInt_Type, gi_frame := 0, gi_rest := [] })],
    frames := [], true_refcnt := 5, false_refcnt := 5, curexc := none }

/-- The `int` object `1` at address 16: the word behind its header is its
value, `1`, which is the address of no frame. -/
def st_int_one : Interp :=
  { objects := [(16, { ob_refcnt := 9, ob_type := .PyInt_Type, gi_frame := 1, gi_rest := [] })],
    frames := [], true_refcnt := 5, false_refcnt := 5, curexc := none }

/-! ## Unfolding lemmas -/

theorem parse_O (args : List Addr) (st : Interp) :
    PyArg_ParseTuple args "O" st =
      if args.length = 1 then (some args, st)
      else (none, { st with curexc := some PyExc.TypeError }) := by
  have h1 : ("O" : String).toList.all (fun c => c == 'O') = true := by decide
  have h2 : ("O" : String).length = 1 := by decide
  unfold PyArg_ParseTuple
  rw [h1, h2]
  by_cases h : args.length = 1 <;> simp [h]

theorem call_arity (self : Addr) (args : List Addr) (st : Interp) (h : args.length ≠ 1) :
    _generator_has_ended self args st
      = some (PyObjectPtr.NULL, { st with curexc := some PyExc.TypeError }) := by
  unfold _generator_has_ended
  rw [parse_O]
  simp [h]

theorem call_one (self gen : Addr) (st : Interp) :
    _generator_has_ended self [gen] st =
      match read_gi_frame st gen with
      | none => none
      | some frame =>
        if frame = NULL then some (PyBool_FromLong 1 st)
        else
          match read_f_stacktop st frame with
          | none => none
          | some stacktop => some (PyBool_FromLong (if stacktop = NULL then 1 else 0) st) := by
  unfold _generator_has_ended
  rw [parse_O]
  simp

theorem bool_true (st : Interp) :
    PyBool_FromLong 1 st
      = (PyObjectPtr.Py_True, { st with true_refcnt := st.true_refcnt + 1 }) := by
  simp [PyBool_FromLong]

theorem bool_false (st : Interp) :
    PyBool_FromLong 0 st
      = (PyObjectPtr.Py_False, { st with false_refcnt := st.false_refcnt + 1 }) := by
  simp [PyBool_FromLong]

/-- With the frame pointer `NULL` the call returns `True` and only takes a
reference to `Py_True`. -/
theorem call_null (self gen : Addr) (st : Interp) (g : genobject)
    (hg : st.objects.lookup gen = some g) (h0 : g.gi_frame = NULL) :
    _generator_has_ended self [gen] st
      = some (PyObjectPtr.Py_True, { st with true_refcnt := st.true_refcnt + 1 }) := by
  rw [call_one]
  simp [read_gi_frame, hg, h0, bool_true]

/-- With a frame present the call returns the boolean `f_stacktop == NULL`. -/
theorem call_frame (self gen : Addr) (st : Interp) (g : genobject) (f : PyFrameObject)
    (hg : st.objects.lookup gen = some g) (h0 : g.gi_frame ≠ NULL)
    (hf : st.frames.lookup g.gi_frame = some f) :
    _generator_has_ended self [gen] st
      = some (PyBool_FromLong (if f.f_stacktop = NULL then 1 else 0) st) := by
  rw [call_one]
  simp [read_gi_frame, read_f_stacktop, hg, h0, hf]

/-- With a frame pointer that addresses no frame the behaviour is undefined. -/
theorem call_dangling (self gen : Addr) (st : Interp) (g : genobject)
    (hg : st.objects.lookup gen = some g) (h0 : g.gi_frame ≠ NULL)
    (hf : st.frames.lookup g.gi_frame = none) :
    _generator_has_ended self [gen] st = none := by
  rw [call_one]
  simp [read_gi_frame, read_f_stacktop, hg, h0, hf]

/-- Only the reference counts of the boolean singletons and the error indicator
can differ after a call. -/
theorem call_heap_unchanged (self : Addr) (args : List Addr) (st st1 : Interp)
    (r : PyObjectPtr) (h : _generator_has_ended self args st = some (r, st1)) :
    st1.objects = st.objects ∧ st1.frames = st.frames := by
  by_cases ha : args.length = 1
  · obtain ⟨gen, rfl⟩ := List.length_eq_one.mp ha
    rw [call_one] at h
    cases hr : read_gi_frame st gen with
    | none => simp [hr] at h
    | some frame =>
      simp only [hr] at h
      by_cases h0 : frame = NULL
      · simp [h0, bool_true] at h
        obtain ⟨-, rfl⟩ := h
        exact ⟨rfl, rfl⟩
      · cases hs : read_f_stacktop st frame with
        | none => simp [h0, hs] at h
        | some stacktop =>
          simp only [h0, hs, if_false] at h
          by_cases h1 : stacktop = NULL
          · simp [h1, bool_true] at h
            obtain ⟨-, rfl⟩ := h
            exact ⟨rfl, rfl⟩
          · simp [h1, bool_false] at h
            obtain ⟨-, rfl⟩ := h
            exact ⟨rfl, rfl⟩
  · rw [call_arity self args st ha] at h
    simp at h
    obtain ⟨-, rfl⟩ := h
    exact ⟨rfl, rfl⟩

/-- The returned pointer is a function of the arguments, the objects and the
frames alone. -/
theorem call_ptr_congr (self self2 : Addr) (args : List Addr) (st st2 : Interp)
    (ho : st2.objects = st.objects) (hf : st2.frames = st.frames) :
    (_generator_has_ended self2 args st2).map Prod.fst
      = (_generator_has_ended self args st).map Prod.fst := by
  by_cases ha : args.length = 1
  · obtain ⟨gen, rfl⟩ := List.length_eq_one.mp ha
    rw [call_one, call_one]
    simp only [read_gi_frame, read_f_stacktop, ho, hf]
    cases st.objects.lookup gen with
    | none => rfl
    | some g =>
      simp only [Option.map_some']
      by_cases h0 : g.gi_frame = NULL
      · simp [h0, bool_true]
      · simp only [h0, if_false]
        cases st.frames.lookup g.gi_frame with
        | none => rfl
        | some f =>
          by_cases h1 : f.f_stacktop = NULL
          · simp [h1, bool_true]
          · simp [h1, bool_false]
  · rw [call_arity self args st ha, call_arity self2 args st2 ha]
    rfl

/-- A call that returned `r` returns `r` again from the state it left. -/
theorem call_again (self : Addr) (args : List Addr) (st st1 : Interp) (r : PyObjectPtr)
    (h : _generator_has_ended self args st = some (r, st1)) :
    ∃ st2, _generator_has_ended self args st1 = some (r, st2) := by
  have hu := call_heap_unchanged self args st st1 r h
  have hc := call_ptr_congr self self args st st1 hu.1 hu.2
  rw [h] at hc
  cases h1 : _generator_has_ended self args st1 with
  | none => rw [h1] at hc; simp at hc
  | some p =>
    obtain ⟨r1, st2⟩ := p
    rw [h1] at hc
    simp at hc
    exact ⟨st2, by rw [hc]⟩

/-- Repeated calls all return what the first call returned. -/
theorem repeat_calls_const (self : Addr) (args : List Addr) (r : PyObjectPtr) (n : Nat) :
    ∀ st st1 : Interp, _generator_has_ended self args st = some (r, st1) →
      ∃ stn, repeat_calls self args (n + 1) st = some (List.replicate (n + 1) r, stn) := by
  induction n with
  | zero =>
    intro st st1 h
    exact ⟨st1, by simp [repeat_calls, h]⟩
  | succ k ih =>
    intro st st1 h
    obtain ⟨st2, h2⟩ := call_again self args st st1 r h
    obtain ⟨stn, hn⟩ := ih st1 st2 h2
    refine ⟨stn, ?_⟩
    rw [repeat_calls, h]
    simp only [hn]
    rfl

/-- A call with one argument never returns the error result. -/
theorem call_one_not_null (self gen : Addr) (st st1 : Interp) :
    _generator_has_ended self [gen] st ≠ some (PyObjectPtr.NULL, st1) := by
  intro h
  rw [call_one] at h
  cases hr : read_gi_frame st gen with
  | none => simp [hr] at h
  | some frame =>
    simp only [hr] at h
    by_cases h0 : frame = NULL
    · simp [h0, bool_true] at h
    · cases hs : read_f_stacktop st frame with
      | none => simp [h0, hs] at h
      | some stacktop =>
        simp only [h0, hs, if_false] at h
        by_cases h1 : stacktop = NULL
        · simp [h1, bool_true] at h
        · simp [h1, bool_false] at h

/-! ## The claims -/

/-- Claim C1. For a call with exactly one argument whose record is readable
(the argument addresses an object and its frame pointer is `NULL` or addresses a
frame), the call returns, the result is `True` exactly when `gi_frame` is `NULL`
or the frame is present with `f_stacktop` `NULL`, and it is `False` exactly when
the frame is present with `f_stacktop` not `NULL`. -/
theorem has_ended_result_iff (self gen : Addr) (st : Interp) (g : genobject)
    (hg : st.objects.lookup gen = some g)
    (hr : g.gi_frame = NULL ∨ ∃ f, st.frames.lookup g.gi_frame = some f) :
    ∃ r st1, _generator_has_ended self [gen] st = some (r, st1) ∧
      (r = PyObjectPtr.Py_True ↔
        (g.gi_frame = NULL ∨
          (g.gi_frame ≠ NULL ∧
            ∃ f, st.frames.lookup g.gi_frame = some f ∧ f.f_stacktop = NULL))) ∧
      (r = PyObjectPtr.Py_False ↔
        (g.gi_frame ≠ NULL ∧
          ∃ f, st.frames.lookup g.gi_frame = some f ∧ f.f_stacktop ≠ NULL)) := by
  by_cases h0 : g.gi_frame = NULL
  · refine ⟨_, _, call_null self gen st g hg h0, ?_, ?_⟩
    · simp [h0]
    · simp [h0]
  · rcases hr with hr | ⟨f, hf⟩
    · exact absurd hr h0
    · by_cases h1 : f.f_stacktop = NULL
      · refine ⟨PyObjectPtr.Py_True, { st with true_refcnt := st.true_refcnt + 1 }, ?_, ?_, ?_⟩
        · rw [call_frame self gen st g f hg h0 hf, if_pos h1, bool_true]
        · simp [h0, hf, h1]
        · simp [h0, hf, h1]
      · refine ⟨PyObjectPtr.Py_False, { st with false_refcnt := st.false_refcnt + 1 }, ?_, ?_, ?_⟩
        · rw [call_frame self gen st g f hg h0 hf, if_neg h1, bool_false]
        · simp [h0, hf, h1]
        · simp [h0, hf, h1]

/-- Claim C1 at the suspended generator of `st_suspended`. -/
theorem has_ended_result_iff_witness :
    st_suspended.objects.lookup 100
        = some { ob_refcnt := 1, ob_type := .PyGen_Type, gi_frame := 200, gi_rest := [0] } ∧
      st_suspended.frames.lookup 200 = some live_frame ∧
      ∃ r st1, _generator_has_ended 0 [100] st_suspended = some (r, st1) ∧
        (r = PyObjectPtr.Py_True ↔
          ((200 : Addr) = NULL ∨
            ((200 : Addr) ≠ NULL ∧
              ∃ f, st_suspended.frames.lookup 200 = some f ∧ f.f_stacktop = NULL))) ∧
        (r = PyObjectPtr.Py_False ↔
          ((200 : Addr) ≠ NULL ∧
            ∃ f, st_suspended.frames.lookup 200 = some f ∧ f.f_stacktop ≠ NULL)) :=
  ⟨by decide, by decide,
    has_ended_result_iff 0 100 st_suspended
      { ob_refcnt := 1, ob_type := .PyGen_Type, gi_frame := 200, gi_rest := [0] }
      (by decide) (Or.inr ⟨live_frame, by decide⟩)⟩

/-- Claim C2. For an argument tuple whose length is not one, the call returns
the error result `NULL` with `TypeError` set, whatever the objects and frames
are: nothing is read through the arguments and no boolean is produced. -/
theorem has_ended_wrong_arity (self : Addr) (args : List Addr) (st : Interp)
    (h : args.length ≠ 1) :
    _generator_has_ended self args st
      = some (PyObjectPtr.NULL, { st with curexc := some PyExc.TypeError }) :=
  call_arity self args st h

/-- Claim C2 at the empty tuple and at a tuple of two arguments. -/
theorem has_ended_wrong_arity_witness :
    ([] : List Addr).length ≠ 1 ∧ ([100, 100] : List Addr).length ≠ 1 ∧
      _generator_has_ended 0 [] st_suspended
        = some (PyObjectPtr.NULL, { st_suspended with curexc := some PyExc.TypeError }) ∧
      _generator_has_ended 0 [100, 100] st_suspended
        = some (PyObjectPtr.NULL, { st_suspended with curexc := some PyExc.TypeError }) :=
  ⟨by decide, by decide, has_ended_wrong_arity 0 [] st_suspended (by decide),
    has_ended_wrong_arity 0 [100, 100] st_suspended (by decide)⟩

/-- Claim C3 fails as stated: called with the `int` object `0`, which is not a
generator, the function raises nothing and returns `True`. -/
theorem non_generator_returns_true :
    (st_int_zero.objects.lookup 16).map (fun g => g.ob_type) = some PyTypeObject.PyInt_Type ∧
      _generator_has_ended 0 [16] st_int_zero
        = some (PyObjectPtr.Py_True, { st_int_zero with true_refcnt := 6 }) ∧
      (_generator_has_ended 0 [16] st_int_zero).map Prod.fst ≠ some PyObjectPtr.NULL ∧
      ({ st_int_zero with true_refcnt := 6 } : Interp).curexc = none := by
  decide

/-- Claim C3, amended. A call whose single argument is an object that is not a
generator raises no error: it never returns `NULL`, it leaves the error
indicator as it was, and it reads the object through the `genobject` layout.
When the word behind the header is `NULL` the result is `True`; when it
addresses a frame the result is the boolean `f_stacktop == NULL`; when it
addresses no frame the behaviour is undefined. -/
theorem non_generator_read_as_generator (self gen : Addr) (st : Interp) (g : genobject)
    (hg : st.objects.lookup gen = some g) (_ht : g.ob_type ≠ PyTypeObject.PyGen_Type) :
    (∀ st1, _generator_has_ended self [gen] st ≠ some (PyObjectPtr.NULL, st1)) ∧
      (∀ r st1, _generator_has_ended self [gen] st = some (r, st1) → st1.curexc = st.curexc) ∧
      (g.gi_frame = NULL →
        _generator_has_ended self [gen] st
          = some (PyObjectPtr.Py_True, { st with true_refcnt := st.true_refcnt + 1 })) ∧
      (∀ f, g.gi_frame ≠ NULL → st.frames.lookup g.gi_frame = some f →
        _generator_has_ended self [gen] st
          = some (PyBool_FromLong (if f.f_stacktop = NULL then 1 else 0) st)) ∧
      (g.gi_frame ≠ NULL → st.frames.lookup g.gi_frame = none →
        _generator_has_ended self [gen] st = none) := by
  refine ⟨?_, ?_, call_null self gen st g hg, fun f h0 hf => call_frame self gen st g f hg h0 hf,
    call_dangling self gen st g hg⟩
  · intro st1 h
    by_cases h0 : g.gi_frame = NULL
    · rw [call_null self gen st g hg h0] at h
      simp at h
    · cases hf : st.frames.lookup g.gi_frame with
      | none => rw [call_dangling self gen st g hg h0 hf] at h; simp at h
      | some f =>
        rw [call_frame self gen st g f hg h0 hf] at h
        by_cases h1 : f.f_stacktop = NULL
        · simp [h1, bool_true] at h
        · simp [h1, bool_false] at h
  · intro r st1 h
    by_cases h0 : g.gi_frame = NULL
    · rw [call_null self gen st g hg h0] at h
      simp at h
      rw [← h.2]
    · cases hf : st.frames.lookup g.gi_frame with
      | none => rw [call_dangling self gen st g hg h0 hf] at h; simp at h
      | some f =>
        rw [call_frame self gen st g f hg h0 hf] at h
        by_cases h1 : f.f_stacktop = NULL
        · simp [h1, bool_true] at h
          rw [← h.2]
        · simp [h1, bool_false] at h
          rw [← h.2]

/-- Claim C3, amended, at the `int` object `0`. -/
theorem non_generator_read_as_generator_witness :
    st_int_zero.objects.lookup 16
        = some { ob_refcnt := 9, ob_type := .PyInt_Type, gi_frame := 0, gi_rest := [] } ∧
      PyTypeObject.PyInt_Type ≠ PyTypeObject.PyGen_Type ∧
      _generator_has_ended 0 [16] st_int_zero
        = some (PyObjectPtr.Py_True,
            { st_int_zero with true_refcnt := st_int_zero.true_refcnt + 1 }) :=
  ⟨by decide, by decide,
    (non_generator_read_as_generator 0 16 st_int_zero
      { ob_refcnt := 9, ob_type := .PyInt_Type, gi_frame := 0, gi_rest := [] }
      (by decide) (by decide)).2.2.1 (by decide)⟩

/-- Claim C4. Whatever a call returns (`True`, `False` or the error `NULL`), the
objects, among them the generator, and the frames of the interpreter state after
the call are those before it. -/
theorem has_ended_pure_read (self : Addr) (args : List Addr) (st st1 : Interp)
    (r : PyObjectPtr) (h : _generator_has_ended self args st = some (r, st1)) :
    st1.objects = st.objects ∧ st1.frames = st.frames :=
  call_heap_unchanged self args st st1 r h

/-- Claim C4 at a call that returns `True`, one that returns `False` and one
that fails. -/
theorem has_ended_pure_read_witness :
    (_generator_has_ended 0 [100] st_released
        = some (PyObjectPtr.Py_True, { st_released with true_refcnt := 6 }) ∧
      ({ st_released with true_refcnt := 6 } : Interp).objects = st_released.objects ∧
      ({ st_released with true_refcnt := 6 } : Interp).frames = st_released.frames) ∧
    (_generator_has_ended 0 [100] st_suspended
        = some (PyObjectPtr.Py_False, { st_suspended with false_refcnt := 6 }) ∧
      ({ st_suspended with false_refcnt := 6 } : Interp).objects = st_suspended.objects ∧
      ({ st_suspended with false_refcnt := 6 } : Interp).frames = st_suspended.frames) ∧
    (_generator_has_ended 0 [] st_suspended
        = some (PyObjectPtr.NULL, { st_suspended with curexc := some PyExc.TypeError }) ∧
      ({ st_suspended with curexc := some PyExc.TypeError } : Interp).objects
        = st_suspended.objects ∧
      ({ st_suspended with curexc := some PyExc.TypeError } : Interp).frames
        = st_suspended.frames) :=
  ⟨⟨by decide, has_ended_pure_read 0 [100] st_released _ PyObjectPtr.Py_True (by decide)⟩,
    ⟨by decide, has_ended_pure_read 0 [100] st_suspended _ PyObjectPtr.Py_False (by decide)⟩,
    ⟨by decide, has_ended_pure_read 0 [] st_suspended _ PyObjectPtr.NULL (by decide)⟩⟩

/-- Claim C5. When a call returns `r`, a further call on the state it left
returns `r` again (so `True` stays `True`), and any number of calls in a row,
with nothing done in between, all return `r`. -/
theorem has_ended_idempotent (self : Addr) (args : List Addr) (st st1 : Interp)
    (r : PyObjectPtr) (h : _generator_has_ended self args st = some (r, st1)) (n : Nat) :
    (∃ st2, _generator_has_ended self args st1 = some (r, st2)) ∧
      ∃ stn, repeat_calls self args (n + 1) st = some (List.replicate (n + 1) r, stn) :=
  ⟨call_again self args st st1 r h, repeat_calls_const self args r n st st1 h⟩

/-- Claim C5 at a finished generator and four calls. -/
theorem has_ended_idempotent_witness :
    _generator_has_ended 0 [100] st_released
        = some (PyObjectPtr.Py_True, { st_released with true_refcnt := 6 }) ∧
      (∃ st2, _generator_has_ended 0 [100] { st_released with true_refcnt := 6 }
        = some (PyObjectPtr.Py_True, st2)) ∧
      ∃ stn, repeat_calls 0 [100] (3 + 1) st_released
        = some (List.replicate (3 + 1) PyObjectPtr.Py_True, stn) :=
  ⟨by decide,
    has_ended_idempotent 0 [100] st_released { st_released with true_refcnt := 6 }
      PyObjectPtr.Py_True (by decide) 3⟩

/-- Claim C6. For a finished generator the call returns `True` under both
conventions named in the source: the frame released (`gi_frame` is `NULL`,
Python 2.5 and later) and the frame kept with `f_stacktop` cleared (`gi_frame`
not `NULL`, `f_stacktop` `NULL`, earlier Pythons). -/
theorem has_ended_true_when_finished (self gen : Addr) (st : Interp) (g : genobject)
    (hg : st.objects.lookup gen = some g)
    (h : g.gi_frame = NULL ∨
      (g.gi_frame ≠ NULL ∧ ∃ f, st.frames.lookup g.gi_frame = some f ∧ f.f_stacktop = NULL)) :
    _generator_has_ended self [gen] st
      = some (PyObjectPtr.Py_True, { st with true_refcnt := st.true_refcnt + 1 }) := by
  rcases h with h0 | ⟨h0, f, hf, h1⟩
  · exact call_null self gen st g hg h0
  · rw [call_frame self gen st g f hg h0 hf, if_pos h1, bool_true]

/-- Claim C6 at a generator whose frame is released and at one whose finished
frame is kept. -/
theorem has_ended_true_when_finished_witness :
    _generator_has_ended 0 [100] st_released
        = some (PyObjectPtr.Py_True,
            { st_released with true_refcnt := st_released.true_refcnt + 1 }) ∧
      _generator_has_ended 0 [100] st_kept
        = some (PyObjectPtr.Py_True, { st_kept with true_refcnt := st_kept.true_refcnt + 1 }) :=
  ⟨has_ended_true_when_finished 0 100 st_released
      { ob_refcnt := 1, ob_type := .PyGen_Type, gi_frame := 0, gi_rest := [0] }
      (by decide) (Or.inl (by decide)),
    has_ended_true_when_finished 0 100 st_kept
      { ob_refcnt := 1, ob_type := .PyGen_Type, gi_frame := 200, gi_rest := [] }
      (by decide) (Or.inr ⟨by decide, dead_frame, by decide, by decide⟩)⟩

/-- Claim C7. For a generator whose frame is present and keeps a non-`NULL`
`f_stacktop` (not yet advanced, or suspended at a `yield`) the call returns
`False`. -/
theorem has_ended_false_when_live (self gen : Addr) (st : Interp) (g : genobject)
    (f : PyFrameObject) (hg : st.objects.lookup gen = some g) (h0 : g.gi_frame ≠ NULL)
    (hf : st.frames.lookup g.gi_frame = some f) (h1 : f.f_stacktop ≠ NULL) :
    _generator_has_ended self [gen] st
      = some (PyObjectPtr.Py_False, { st with false_refcnt := st.false_refcnt + 1 }) := by
  rw [call_frame self gen st g f hg h0 hf, if_neg h1, bool_false]

/-- Claim C7 at the suspended generator of `st_suspended`. -/
theorem has_ended_false_when_live_witness :
    st_suspended.frames.lookup 200 = some live_frame ∧ live_frame.f_stacktop ≠ NULL ∧
      _generator_has_ended 0 [100] st_suspended
        = some (PyObjectPtr.Py_False,
            { st_suspended with false_refcnt := st_suspended.false_refcnt + 1 }) :=
  ⟨by decide, by decide,
    has_ended_false_when_live 0 100 st_suspended
      { ob_refcnt := 1, ob_type := .PyGen_Type, gi_frame := 200, gi_rest := [0] } live_frame
      (by decide) (by decide) (by decide) (by decide)⟩

/-- Claim C8 fails as stated: a call that supplies exactly one positional
argument, the `int` object `1`, returns no boolean; the word behind the header
of that object addresses no frame and the read `frame->f_stacktop` is
undefined. -/
theorem one_argument_without_boolean :
    ([16] : List Addr).length = 1 ∧
      (st_int_one.objects.lookup 16).map (fun g => g.gi_frame) = some 1 ∧
      st_int_one.frames.lookup 1 = none ∧
      _generator_has_ended 0 [16] st_int_one = none := by
  decide

/-- Claim C8, amended. The call returns the error result exactly when argument
parsing fails, that is when the tuple does not hold exactly one argument; a
call with exactly one argument never returns an error, and it returns `True` or
`False` whenever the record of the argument is readable (the argument addresses
an object and its frame pointer is `NULL` or addresses a frame). -/
theorem has_ended_error_iff_arity (self : Addr) (args : List Addr) (st : Interp) :
    ((∃ st1, _generator_has_ended self args st = some (PyObjectPtr.NULL, st1))
        ↔ args.length ≠ 1) ∧
      ((∃ st1, _generator_has_ended self args st = some (PyObjectPtr.NULL, st1))
        ↔ (PyArg_ParseTuple args "O" st).1 = none) ∧
      (∀ gen g, args = [gen] → st.objects.lookup gen = some g →
        (g.gi_frame = NULL ∨ ∃ f, st.frames.lookup g.gi_frame = some f) →
        ∃ st1, _generator_has_ended self args st = some (PyObjectPtr.Py_True, st1) ∨
          _generator_has_ended self args st = some (PyObjectPtr.Py_False, st1)) := by
  have key : (∃ st1, _generator_has_ended self args st = some (PyObjectPtr.NULL, st1))
      ↔ args.length ≠ 1 := by
    constructor
    · rintro ⟨st1, h⟩ ha
      obtain ⟨gen, rfl⟩ := List.length_eq_one.mp ha
      exact call_one_not_null self gen st st1 h
    · intro ha
      exact ⟨_, call_arity self args st ha⟩
  refine ⟨key, ?_, ?_⟩
  · rw [key, parse_O]
    by_cases ha : args.length = 1 <;> simp [ha]
  · rintro gen g rfl hg hr
    by_cases h0 : g.gi_frame = NULL
    · exact ⟨_, Or.inl (call_null self gen st g hg h0)⟩
    · rcases hr with hr | ⟨f, hf⟩
      · exact absurd hr h0
      · by_cases h1 : f.f_stacktop = NULL
        · refine ⟨{ st with true_refcnt := st.true_refcnt + 1 }, Or.inl ?_⟩
          rw [call_frame self gen st g f hg h0 hf, if_pos h1, bool_true]
        · refine ⟨{ st with false_refcnt := st.false_refcnt + 1 }, Or.inr ?_⟩
          rw [call_frame self gen st g f hg h0 hf, if_neg h1, bool_false]

/-- Claim C8, amended, at a readable one-argument call: it returns a boolean. -/
theorem has_ended_error_iff_arity_witness :
    ∃ st1, _generator_has_ended 0 [100] st_kept = some (PyObjectPtr.Py_True, st1) ∨
      _generator_has_ended 0 [100] st_kept = some (PyObjectPtr.Py_False, st1) :=
  (has_ended_error_iff_arity 0 [100] st_kept).2.2 100
    { ob_refcnt := 1, ob_type := .PyGen_Type, gi_frame := 200, gi_rest := [] }
    rfl (by decide) (Or.inr ⟨dead_frame, by decide⟩)

/-- Claim C9. For a generator whose `gi_frame` is `NULL` the call returns `True`
from the null check alone: the result is the same whatever the frames are, also
when there is no frame at all and the read `frame->f_stacktop` would be
undefined. -/
theorem has_ended_null_frame_no_deref (self gen : Addr) (st : Interp) (g : genobject)
    (hg : st.objects.lookup gen = some g) (h0 : g.gi_frame = NULL) :
    (∀ frames2 : List (Addr × PyFrameObject),
        _generator_has_ended self [gen] { st with frames := frames2 }
          = some (PyObjectPtr.Py_True,
              { st with frames := frames2, true_refcnt := st.true_refcnt + 1 })) ∧
      read_f_stacktop { st with frames := [] } g.gi_frame = none ∧
      _generator_has_ended self [gen] { st with frames := [] }
        = some (PyObjectPtr.Py_True,
            { st with frames := [], true_refcnt := st.true_refcnt + 1 }) := by
  have h : ∀ frames2 : List (Addr × PyFrameObject),
      _generator_has_ended self [gen] { st with frames := frames2 }
        = some (PyObjectPtr.Py_True,
            { st with frames := frames2, true_refcnt := st.true_refcnt + 1 }) :=
    fun frames2 => call_null self gen { st with frames := frames2 } g hg h0
  exact ⟨h, by simp [read_f_stacktop], h []⟩

/-- Claim C9 at the finished generator of `st_released`, with the frames of
another state put in place of its own. -/
theorem has_ended_null_frame_no_deref_witness :
    read_f_stacktop { st_released with frames := [] } 0 = none ∧
      _generator_has_ended 0 [100] { st_released with frames := st_suspended.frames }
        = some (PyObjectPtr.Py_True,
            { st_released with frames := st_suspended.frames,
                               true_refcnt := st_released.true_refcnt + 1 }) :=
  ⟨by decide,
    (has_ended_null_frame_no_deref 0 100 st_released
      { ob_refcnt := 1, ob_type := .PyGen_Type, gi_frame := 0, gi_rest := [0] }
      (by decide) (by decide)).1 st_suspended.frames⟩

/-- Claim C10. Two calls on readable generators that agree on whether the frame
pointer is `NULL` and, with the frames present, on whether `f_stacktop` is
`NULL`, return the same boolean, whatever the `self` arguments, the addresses
and the other contents of the generators, the frames and the interpreter
states. -/
theorem has_ended_depends_only_on_frame_state (self1 self2 gen1 gen2 : Addr)
    (st1 st2 : Interp) (g1 g2 : genobject)
    (hg1 : st1.objects.lookup gen1 = some g1) (hg2 : st2.objects.lookup gen2 = some g2)
    (hr1 : g1.gi_frame = NULL ∨ ∃ f, st1.frames.lookup g1.gi_frame = some f)
    (hr2 : g2.gi_frame = NULL ∨ ∃ f, st2.frames.lookup g2.gi_frame = some f)
    (hnull : g1.gi_frame = NULL ↔ g2.gi_frame = NULL)
    (htop : ∀ f1 f2, g1.gi_frame ≠ NULL → st1.frames.lookup g1.gi_frame = some f1 →
      st2.frames.lookup g2.gi_frame = some f2 → (f1.f_stacktop = NULL ↔ f2.f_stacktop = NULL)) :
    ∃ r s1 s2, r ≠ PyObjectPtr.NULL ∧
      _generator_has_ended self1 [gen1] st1 = some (r, s1) ∧
      _generator_has_ended self2 [gen2] st2 = some (r, s2) := by
  by_cases h0 : g1.gi_frame = NULL
  · exact ⟨PyObjectPtr.Py_True, _, _, by decide, call_null self1 gen1 st1 g1 hg1 h0,
      call_null self2 gen2 st2 g2 hg2 (hnull.mp h0)⟩
  · have h0' : g2.gi_frame ≠ NULL := fun h => h0 (hnull.mpr h)
    rcases hr1 with hr1 | ⟨f1, hf1⟩
    · exact absurd hr1 h0
    rcases hr2 with hr2 | ⟨f2, hf2⟩
    · exact absurd hr2 h0'
    by_cases h1 : f1.f_stacktop = NULL
    · have h2 : f2.f_stacktop = NULL := (htop f1 f2 h0 hf1 hf2).mp h1
      refine ⟨PyObjectPtr.Py_True, { st1 with true_refcnt := st1.true_refcnt + 1 },
        { st2 with true_refcnt := st2.true_refcnt + 1 }, by decide, ?_, ?_⟩
      · rw [call_frame self1 gen1 st1 g1 f1 hg1 h0 hf1, if_pos h1, bool_true]
      · rw [call_frame self2 gen2 st2 g2 f2 hg2 h0' hf2, if_pos h2, bool_true]
    · have h2 : f2.f_stacktop ≠ NULL := fun h => h1 ((htop f1 f2 h0 hf1 hf2).mpr h)
      refine ⟨PyObjectPtr.Py_False, { st1 with false_refcnt := st1.false_refcnt + 1 },
        { st2 with false_refcnt := st2.false_refcnt + 1 }, by decide, ?_, ?_⟩
      · rw [call_frame self1 gen1 st1 g1 f1 hg1 h0 hf1, if_neg h1, bool_false]
      · rw [call_frame self2 gen2 st2 g2 f2 hg2 h0' hf2, if_neg h2, bool_false]

/-- Claim C10 at two suspended generators that differ in everything but the two
facts. -/
theorem has_ended_depends_only_on_frame_state_witness :
    ∃ r s1 s2, r ≠ PyObjectPtr.NULL ∧
      _generator_has_ended 0 [100] st_suspended = some (r, s1) ∧
      _generator_has_ended 7 [300] st_suspended_other = some (r, s2) :=
  has_ended_depends_only_on_frame_state 0 7 100 300 st_suspended st_suspended_other
    { ob_refcnt := 1, ob_type := .PyGen_Type, gi_frame := 200, gi_rest := [0] }
    { ob_refcnt := 4, ob_type := .PyGen_Type, gi_frame := 400, gi_rest := [1, 7] }
    (by decide) (by decide) (Or.inr ⟨live_frame, by decide⟩)
    (Or.inr ⟨other_live_frame, by decide⟩) (by decide)
    (by
      intro f1 f2 _ hf1 hf2
      have h1 : st_suspended.frames.lookup 200 = some live_frame := by decide
      have h2 : st_suspended_other.frames.lookup 400 = some other_live_frame := by decide
      have e1 : f1 = live_frame := (Option.some.inj (h1.symm.trans hf1)).symm
      have e2 : f2 = other_live_frame := (Option.some.inj (h2.symm.trans hf2)).symm
      rw [e1, e2]
      decide)

end Pythoscope
